import Mathlib

/-!
Verification development for the imars3d data-loading backend
(`src/imars3d/backend/data.py`).

The Python module is shallowly embedded as executable Lean definitions:

* Python exceptions become an explicit `PyError` sum type and functions that
  can raise return `Except PyError _`.
* The observable side effects of the module (diagnostic log lines and the
  instantiation of a `process_map` worker pool with a given `desc` and
  `max_workers`) are collected in a `Trace` value returned alongside each
  result.
* External collaborators (the `dxchange` decoders, Python's `re.match`,
  folder existence for `param.Foldername`, and `multiprocessing.cpu_count`)
  are packaged as an `Env` parameter; a decoder that raises on a given file
  is modelled by returning `none` for that file.
* `numpy` stacks are modelled as Lean lists of frames; the frame type is a
  type parameter `α` since no property here depends on pixel contents.
-/

/-- Python exception kinds that the embedded code can raise. -/
inductive PyError where
  | valueError (msg : String)
  | indexError
  | typeError (msg : String)
  | ioError (msg : String)
  | notImplementedError
  | unboundLocalError (name : String)
  deriving Repr, DecidableEq

/-- Observable side effects of one call: diagnostic log lines, plus one
entry `(desc, max_workers)` for every `process_map` worker pool that gets
instantiated. -/
structure Trace where
  logs : List String
  pmapCalls : List (String × Int)
  deriving Repr, DecidableEq

/-- The empty trace. -/
def emptyTrace : Trace := ⟨[], []⟩

/-- Sequential composition of traces. -/
def Trace.app (t1 t2 : Trace) : Trace :=
  ⟨t1.logs ++ t2.logs, t1.pmapCalls ++ t2.pmapCalls⟩

/-- External collaborators of the data module.  `read_tiff`/`read_fits` model
`dxchange.read_tiff`/`dxchange.read_fits`, returning `none` on the files for
which the real decoder raises.  `re_match pattern s` models truthiness of
Python's `re.match(pattern, s)`.  `dir_exists` models the filesystem check
performed by `param.Foldername`, and `cpu_count` models
`multiprocessing.cpu_count()`. -/
structure Env (α : Type) where
  read_tiff : String → Option α
  read_fits : String → Option α
  re_match : String → String → Bool
  dir_exists : String → Bool
  cpu_count : Nat

/-- Last path component, as in `pathlib.PurePath.name` for POSIX paths
without trailing separators: the characters after the last `'/'`. -/
def lastComponent (cs : List Char) : List Char :=
  cs.foldl (fun acc c => if c = '/' then [] else acc ++ [c]) []

/-- Index of the last `'.'` in a character list, as in Python's
`str.rfind('.')` (returning `none` instead of `-1`). -/
def rfindDot : List Char → Option Nat
  | [] => none
  | c :: cs =>
    match rfindDot cs with
    | some i => some (i + 1)
    | none => if c = '.' then some 0 else none

/-- `pathlib.PurePath.suffix`: the final extension of the last path
component, including the dot; empty when the name has no dot, starts with
its only dot, or ends with a dot. -/
def pySuffix (p : String) : String :=
  let name := lastComponent p.toList
  match rfindDot name with
  | some i => if 0 < i ∧ i < name.length - 1 then String.mk (name.drop i) else ""
  | none => ""

/-- Python `str.lower()` (ASCII case suffices for the extensions used). -/
def pyLower (s : String) : String := String.mk (s.toList.map Char.toLower)

/-- The default selection pattern of `load_data`: the Python literal
`"\b*"`, i.e. the backspace character followed by `*` (the docstring's
`\b` is not a raw string), which as a regex matches every string. -/
def defaultRegex : String := "\x08*"

/-- `data.py` lines 261-283, `_forgiving_reader(filename, reader)`: calls
the reader and converts any raised exception into the diagnostic
`"Cannot read {filename}, skipping."` plus a `None` result. -/
def _forgiving_reader {α : Type} (reader : String → Option α) (filename : String) :
    Option α × List String :=
  match reader filename with
  | some img => (some img, [])
  | none => (none, ["Cannot read " ++ filename ++ ", skipping."])

/-- `data.py` lines 249-257: `process_map(partial(_forgiving_reader,
reader=reader), filelist, max_workers=..., desc=...)` followed by
`np.array([me for me in rst if me is not None])`.  `process_map` preserves
submission order, so it is a `List.map`; the worker-pool instantiation is
recorded in the trace. -/
def processMapStack {α : Type} (reader : String → Option α) (filelist : List String)
    (desc : String) (max_workers : Int) :
    Except PyError (List α) × Trace :=
  let rst := filelist.map (_forgiving_reader reader)
  (Except.ok (rst.filterMap Prod.fst),
   ⟨(rst.map Prod.snd).flatten, [(desc, max_workers)]⟩)

/-- `data.py` lines 240-248: the decoder chosen from the suffix of the first
file of the batch; `none` when the extension is unsupported. -/
def selectReader {α : Type} (env : Env α) (f0 : String) : Option (String → Option α) :=
  let file_ext := pyLower (pySuffix f0)
  if file_ext = ".tif" || file_ext = ".tiff" then some env.read_tiff
  else if file_ext = ".fits" then some env.read_fits
  else none

/-- `data.py` lines 219-257, `_load_images(filelist, desc, max_workers)`:
on an empty list, `filelist[0]` raises `IndexError`; an unsupported first
extension logs and raises `ValueError("Unsupported file type.")` before any
decode; otherwise the single selected decoder is mapped over the whole
batch through the forgiving reader and survivors are stacked. -/
def _load_images {α : Type} (env : Env α) (filelist : List String) (desc : String)
    (max_workers : Int) : Except PyError (List α) × Trace :=
  match filelist with
  | [] => (Except.error PyError.indexError, emptyTrace)
  | f0 :: _ =>
    match selectReader env f0 with
    | some reader => processMapStack reader filelist desc max_workers
    | none =>
      (Except.error (PyError.valueError "Unsupported file type."),
       ⟨["Unsupported file type: " ++ pyLower (pySuffix f0)], []⟩)

/-- Iterating a Python value that may be `None`: a list comprehension over
`None` raises `TypeError`. -/
def pyIter (l : Option (List String)) : Except PyError (List String) :=
  match l with
  | some xs => Except.ok xs
  | none => Except.error (PyError.typeError "NoneType object is not iterable")

/-- `data.py` lines 167-215, `_load_by_file_list(ct_files, ob_files,
dc_files, ct_regex, ob_regex, dc_regex, max_workers=0)`.

The `ct_files`/`ob_files`/`dc_files` arguments are `Option` because the
orchestrator can pass Python `None` through `params.get`; `some []` is the
Python empty list, which is what the `== []` checks compare against.  The
order of effects follows the source: emptiness checks on the *unfiltered*
lists, the `dc_files is [].` warning, then per role a regex filter over the
candidate list followed by `_load_images`. -/
def _load_by_file_list {α : Type} (env : Env α)
    (ct_files ob_files dc_files : Option (List String))
    (ct_regex ob_regex dc_regex : String) (max_workers : Int := 0) :
    Except PyError (List α × List α × Option (List α)) × Trace :=
  if ct_files = some [] then
    (Except.error (PyError.valueError "ct_files cannot be empty list."),
     ⟨["ct_files is []."], []⟩)
  else if ob_files = some [] then
    (Except.error (PyError.valueError "ob_files cannot be empty list."),
     ⟨["ob_files is []."], []⟩)
  else
    let tWarn : Trace := if dc_files = some [] then ⟨["dc_files is []."], []⟩ else emptyTrace
    match pyIter ct_files with
    | Except.error e => (Except.error e, tWarn)
    | Except.ok ctl =>
      match _load_images env (ctl.filter (env.re_match ct_regex)) "ct" max_workers with
      | (Except.error e, t1) => (Except.error e, tWarn.app t1)
      | (Except.ok ct, t1) =>
        match pyIter ob_files with
        | Except.error e => (Except.error e, tWarn.app t1)
        | Except.ok obl =>
          match _load_images env (obl.filter (env.re_match ob_regex)) "ob" max_workers with
          | (Except.error e, t2) => (Except.error e, tWarn.app (t1.app t2))
          | (Except.ok ob, t2) =>
            if dc_files = some [] then
              (Except.ok (ct, ob, none), tWarn.app (t1.app t2))
            else
              match pyIter dc_files with
              | Except.error e => (Except.error e, tWarn.app (t1.app t2))
              | Except.ok dcl =>
                match _load_images env (dcl.filter (env.re_match dc_regex)) "dc" max_workers with
                | (Except.error e, t3) =>
                  (Except.error e, tWarn.app (t1.app (t2.app t3)))
                | (Except.ok dc, t3) =>
                  (Except.ok (ct, ob, some dc), tWarn.app (t1.app (t2.app t3)))

/-- `data.py` lines 145-163, `_load_by_dir`: the body's first statement is
`raise NotImplementedError`, so every call fails immediately. -/
def _load_by_dir {α : Type} (_env : Env α)
    (_ct_dir _ob_dir : String) (_dc_dir : Option String)
    (_ct_regex _ob_regex _dc_regex : String) :
    Except PyError (List α × List α × Option (List α)) × Trace :=
  (Except.error PyError.notImplementedError, emptyTrace)

/-- Collect every element of an all-or-nothing traversal: `some` of the full
list exactly when every entry resolves, `none` as soon as one entry fails. -/
def optionCollect (g : String → Option ℚ) : List String → Option (List ℚ)
  | [] => some []
  | f :: fs =>
    match g f, optionCollect g fs with
    | some a, some as => some (a :: as)
    | _, _ => none

/-- Modelled from the spec: the source `_extract_rotation_angles` (data.py
lines 139-142) is an unimplemented stub whose body is
`raise NotImplementedError`, so the extraction algorithm itself is missing
from the source.  Following spec section 4.4: the filename angle source is
used when it yields a value for every file; otherwise, per file, the
filename source then the tiff metadata source are tried in that order, and
if neither yields a value for some file the whole operation fails with an
extraction error — a partial series is never produced.  The two angle
sources (`fnameAngle` for filename token parsing, `metaAngle` for embedded
tiff metadata, `none` on non-tiff files) are parameters. -/
def _extract_rotation_angles (fnameAngle metaAngle : String → Option ℚ)
    (filelist : List String) : Except PyError (List ℚ) :=
  if filelist.all (fun f => (fnameAngle f).isSome) then
    Except.ok (filelist.filterMap fnameAngle)
  else
    match optionCollect (fun f => (fnameAngle f).orElse (fun _ => metaAngle f)) filelist with
    | some angles => Except.ok angles
    | none => Except.error (PyError.valueError "Failed to extract rotation angles.")

/-- `data.py` line 95: `multiprocessing.cpu_count() - 2 if
params.max_workers == 0 else params.max_workers`.  Note there is no floor:
on a machine with at most 2 CPUs the resolved value is ≤ 0. -/
def resolve_max_workers (cpu_count : Nat) (mw : Int) : Int :=
  if mw = 0 then (cpu_count : Int) - 2 else mw

/-- The keyword arguments of one `load_data` call; `none` means the keyword
was not supplied (Python parameter defaults are applied at the use sites,
exactly as `ParamOverrides`/`dict.get` do in the source). -/
structure Params where
  ct_files : Option (List String) := none
  ob_files : Option (List String) := none
  dc_files : Option (List String) := none
  ct_dir : Option String := none
  ob_dir : Option String := none
  dc_dir : Option String := none
  ct_regex : Option String := none
  ob_regex : Option String := none
  dc_regex : Option String := none
  max_workers : Option Int := none
  deriving Repr, DecidableEq

/-- Whether the supplied keywords contribute `"files"` to the signature set
`sigs` of `load_data.__call__` (data.py line 101). -/
def Params.hasFiles (p : Params) : Bool :=
  p.ct_files.isSome || p.ob_files.isSome || p.dc_files.isSome

/-- Whether the supplied keywords contribute `"dir"` to `sigs`. -/
def Params.hasDir (p : Params) : Bool :=
  p.ct_dir.isSome || p.ob_dir.isSome || p.dc_dir.isSome

/-- Whether the supplied keywords contribute `"workers"` to `sigs`: the key
`"max_workers"` does not contain `"regex"`, so when supplied it adds
`"workers"` to the signature set. -/
def Params.hasWorkers (p : Params) : Bool :=
  p.max_workers.isSome

/-- `param.Foldername` validation of one optional directory argument. -/
def checkDir {α : Type} (env : Env α) (d : Option String) : Bool :=
  match d with
  | none => true
  | some s => env.dir_exists s

/-- `self.instance(**params)` (data.py line 91): the `param` library's
type and bounds validation.  `max_workers` is declared with
`bounds=(0, None)`, so a negative value raises `ValueError`; a supplied
`Foldername` that does not exist raises an IO error.  The bounds check is
placed first; no claim depends on the relative order of the two checks. -/
def instanceValidate {α : Type} (env : Env α) (p : Params) : Except PyError Unit :=
  if (match p.max_workers with
      | some mw => if mw < 0 then true else false
      | none => false) then
    Except.error (PyError.valueError "Parameter max_workers must be at least 0.")
  else if !(checkDir env p.ct_dir && checkDir env p.ob_dir && checkDir env p.dc_dir) then
    Except.error (PyError.ioError "Foldername not found.")
  else Except.ok ()

/-- `data.py` lines 86-136, `load_data.__call__`.

After validation and `max_workers` resolution (the resolved value is stored
on `self` and logged, but — exactly as in the source — never passed on to
the resolver, which therefore uses its own default of `0`), the signature
set `sigs = {k.split("_")[-1] for k in params.keys() if "regex" not in k}`
drives a three-way dispatch; any other signature set falls into the final
`else`, which only logs a warning, after which line 133 references the
never-assigned local `ct_files` and raises `UnboundLocalError`.

The rotation-angle extraction step takes the two spec-modelled angle
sources as parameters (see `_extract_rotation_angles`): in the source the
stub raises `NotImplementedError`, so the composition with a working
extractor is itself modelled from the spec. -/
def load_data_call {α : Type} (env : Env α)
    (fnameAngle metaAngle : String → Option ℚ) (p : Params) :
    Except PyError (List α × List α × Option (List α) × List ℚ) × Trace :=
  match instanceValidate env p with
  | Except.error e => (Except.error e, emptyTrace)
  | Except.ok _ =>
    let self_max_workers : Int := resolve_max_workers env.cpu_count (p.max_workers.getD 0)
    let t0 : Trace := ⟨["max_worker=" ++ toString self_max_workers], []⟩
    if p.hasFiles && p.hasDir && !p.hasWorkers then
      (Except.error (PyError.valueError "Mix usage of allowed signature."),
       t0.app ⟨["Files and dir cannot be used at the same time"], []⟩)
    else if p.hasFiles && !p.hasDir && !p.hasWorkers then
      let t1 := t0.app ⟨["Load by file list"], []⟩
      match _load_by_file_list env p.ct_files p.ob_files (some (p.dc_files.getD []))
          (p.ct_regex.getD defaultRegex) (p.ob_regex.getD defaultRegex)
          (p.dc_regex.getD defaultRegex) with
      | (Except.error e, t2) => (Except.error e, t1.app t2)
      | (Except.ok (ct, ob, dc), t2) =>
        match p.ct_files with
        | none => (Except.error (PyError.typeError "NoneType object is not iterable"),
                   t1.app t2)
        | some ctl =>
          match _extract_rotation_angles fnameAngle metaAngle ctl with
          | Except.error e => (Except.error e, t1.app t2)
          | Except.ok angles => (Except.ok (ct, ob, dc, angles), t1.app t2)
    else if p.hasDir && !p.hasFiles && !p.hasWorkers then
      match _load_by_dir env (p.ct_dir.getD "") (p.ob_dir.getD "") p.dc_dir
          (p.ct_regex.getD defaultRegex) (p.ob_regex.getD defaultRegex)
          (p.dc_regex.getD defaultRegex) with
      | (r, t2) =>
        (match r with
         | Except.error e => Except.error e
         | Except.ok _ => Except.error PyError.notImplementedError,
         (t0.app ⟨["Load by directory"], []⟩).app t2)
    else
      (Except.error (PyError.unboundLocalError "ct_files"),
       t0.app ⟨["Found unknown input arguments, ignoring."], []⟩)

/-- A concrete collaborator environment over `Nat` frames: every tiff file
decodes to `1` except `bad.tiff`, whose decode raises; `re_match` is the
truth of `re.match` for the default pattern `"\x08*"`, which matches the
empty string at the start of every input; the machine has 10 CPUs. -/
def natEnv : Env Nat :=
  { read_tiff := fun f => if f = "bad.tiff" then none else some 1
    read_fits := fun _ => some 2
    re_match := fun _ _ => true
    dir_exists := fun _ => true
    cpu_count := 10 }

/-- Whether the first character list is an initial segment of the second. -/
def charsStart : List Char → List Char → Bool
  | [], _ => true
  | _ :: _, [] => false
  | a :: as, b :: bs => a = b && charsStart as bs

/-- A collaborator environment whose selection patterns are metacharacter
free literals: for such patterns `re.match(p, s)` is truthy exactly when
`s` starts with `p` (all decodes succeed; 4 CPUs). -/
def litEnv : Env Nat :=
  { read_tiff := fun _ => some 1
    read_fits := fun _ => some 2
    re_match := fun pat s => charsStart pat.toList s.toList
    dir_exists := fun _ => true
    cpu_count := 4 }

/-- A filename angle source that resolves every file to 0 degrees. -/
def fa0 : String → Option ℚ := fun _ => some 0

/-- A metadata angle source that never resolves (e.g. non-tiff inputs). -/
def ma0 : String → Option ℚ := fun _ => none

/-- Project a successful orchestrator result to the pair
(length of the ct stack, length of the angle series). -/
def okLens (r : Except PyError (List Nat × List Nat × Option (List Nat) × List ℚ)) :
    Option (Nat × Nat) :=
  match r with
  | Except.ok (ct, _, _, angles) => some (ct.length, angles.length)
  | Except.error _ => none

/-- Whether a call outcome is a raised `ValueError`. -/
def raisesValueError {β : Type} (r : Except PyError β × Trace) : Bool :=
  match r.1 with
  | Except.error (PyError.valueError _) => true
  | _ => false

/-- The empty request: no keyword supplied at all, so neither signature set
is (even partially) present. -/
def pEmpty : Params := {}

/-- A mixed request: a files field and a dir field supplied together. -/
def pMix : Params := { ct_files := some ["a.tiff"], ct_dir := some "/data" }

/-- A valid files request that additionally supplies `max_workers = 0`. -/
def pZero : Params :=
  { ct_files := some ["a.tiff"], ob_files := some ["b.tiff"], max_workers := some 0 }

/-- A valid files request that supplies `max_workers = -1`. -/
def pNeg : Params :=
  { ct_files := some ["a.tiff"], ob_files := some ["b.tiff"], max_workers := some (-1) }

/-- A second files request with `max_workers = 0`. -/
def pZero2 : Params :=
  { ct_files := some ["w.tiff"], ob_files := some ["v.tiff"], max_workers := some 0 }

/-- An environment in which the decode of `b.tiff` fails. -/
def env8 : Env Nat :=
  { natEnv with read_tiff := fun f => if f = "b.tiff" then none else some 1 }

/-- A files request with two ct files, one of which fails to decode. -/
def p8cex : Params :=
  { ct_files := some ["a.tiff", "b.tiff"], ob_files := some ["c.tiff"] }

/-- A files request whose every decode succeeds. -/
def p8ok : Params :=
  { ct_files := some ["a.tiff", "c.tiff"], ob_files := some ["d.tiff"] }

/-- A plain files request used to exhibit the dropped worker bound. -/
def p10 : Params := { ct_files := some ["a.tiff"], ob_files := some ["b.tiff"] }

/-- A second plain files request, for the C10 witness. -/
def p10w : Params := { ct_files := some ["e.tiff"], ob_files := some ["f.tiff"] }

/-- The decodes surviving the forgiving reader are exactly the successful
decodes, in input order. -/
theorem forgiving_filterMap {α : Type} (r : String → Option α) (l : List String) :
    (l.map (_forgiving_reader r)).filterMap Prod.fst = l.filterMap r := by
  induction l with
  | nil => rfl
  | cons a l ih =>
    cases h : r a <;>
      simp [_forgiving_reader, h, List.filterMap_cons, ih]

/-- The forgiving reader emits exactly one diagnostic per failed decode. -/
theorem forgiving_logs_length {α : Type} (r : String → Option α) (l : List String) :
    ((l.map (_forgiving_reader r)).map Prod.snd).flatten.length
      = l.countP (fun f => (r f).isNone) := by
  induction l with
  | nil => rfl
  | cons a l ih =>
    rw [List.map_cons, List.map_cons, List.flatten_cons, List.length_append, ih,
        List.countP_cons]
    cases h : r a <;> simp [_forgiving_reader, h]
    omega

/-- Survivor count plus failure count equals the batch size. -/
theorem filterMap_length_add_countP {α : Type} (r : String → Option α) (l : List String) :
    (l.filterMap r).length + l.countP (fun f => (r f).isNone) = l.length := by
  induction l with
  | nil => rfl
  | cons a l ih =>
    cases h : r a <;>
      simp [List.filterMap_cons, h, List.countP_cons, ← ih] <;> omega

/-- A traversal in which every entry resolves keeps the full length. -/
theorem filterMap_length_of_all_isSome {α : Type} (g : String → Option α)
    (l : List String) (h : ∀ f ∈ l, (g f).isSome) :
    (l.filterMap g).length = l.length := by
  induction l with
  | nil => rfl
  | cons a l ih =>
    have ha := h a (by simp)
    have hl : ∀ f ∈ l, (g f).isSome := fun f hf => h f (List.mem_cons_of_mem a hf)
    cases hg : g a with
    | none => rw [hg] at ha; simp at ha
    | some x =>
      simp only [List.filterMap_cons, hg, List.length_cons]
      rw [ih hl]

/-- `optionCollect` preserves length on success. -/
theorem optionCollect_length (g : String → Option ℚ) :
    ∀ (l : List String) (as : List ℚ), optionCollect g l = some as → as.length = l.length := by
  intro l
  induction l with
  | nil => intro as h; simp [optionCollect] at h; simp [← h]
  | cons a l ih =>
    intro as h
    simp only [optionCollect] at h
    cases hg : g a with
    | none => rw [hg] at h; simp at h
    | some x =>
      rw [hg] at h
      cases hc : optionCollect g l with
      | none => rw [hc] at h; simp at h
      | some xs =>
        rw [hc] at h
        simp at h
        simp [← h, ih xs hc]

/-- `optionCollect` fails as soon as one entry fails to resolve. -/
theorem optionCollect_eq_none (g : String → Option ℚ) (l : List String)
    (f : String) (hf : f ∈ l) (hn : g f = none) :
    optionCollect g l = none := by
  induction l with
  | nil => cases hf
  | cons a l ih =>
    simp only [optionCollect]
    rcases List.mem_cons.mp hf with h | h
    · subst h
      rw [hn]
    · cases hg : g a
      · rfl
      · rw [ih h]

/-- On success the spec-modelled extractor returns one angle per input file. -/
theorem extract_length (fa ma : String → Option ℚ) (l : List String) (as : List ℚ)
    (h : _extract_rotation_angles fa ma l = Except.ok as) : as.length = l.length := by
  unfold _extract_rotation_angles at h
  by_cases hall : l.all (fun f => (fa f).isSome)
  · rw [if_pos hall] at h
    have : as = l.filterMap fa := by
      cases h; rfl
    rw [this]
    exact filterMap_length_of_all_isSome fa l (by
      intro f hf
      exact List.all_eq_true.mp hall f hf)
  · rw [if_neg hall] at h
    cases hc : optionCollect (fun f => (fa f).orElse (fun _ => ma f)) l with
    | none => rw [hc] at h; cases h
    | some xs =>
      rw [hc] at h
      cases h
      exact optionCollect_length _ l as hc

/-- C4: for every path and every decode function, the forgiving reader is a
total function (it never raises): it returns the decoder's result unchanged
on success, and on any decode failure it emits exactly one diagnostic
identifying the path and returns `none` instead of propagating the
failure. -/
theorem c4_forgiving_reader_never_raises {α : Type} (reader : String → Option α)
    (filename : String) :
    (∀ v, reader filename = some v →
      _forgiving_reader reader filename = (some v, []))
    ∧ (reader filename = none →
      _forgiving_reader reader filename
        = (none, ["Cannot read " ++ filename ++ ", skipping."])) := by
  constructor
  · intro v hv
    simp [_forgiving_reader, hv]
  · intro hv
    simp [_forgiving_reader, hv]

/-- Witness for C4 at a failing and a succeeding concrete reader. -/
theorem c4_witness :
    _forgiving_reader (fun _ => (none : Option Nat)) "f.tiff"
      = (none, ["Cannot read f.tiff, skipping."])
    ∧ _forgiving_reader (fun f => some f.length) "f.tiff" = (some 6, []) :=
  ⟨(c4_forgiving_reader_never_raises (fun _ => (none : Option Nat)) "f.tiff").2 rfl,
   (c4_forgiving_reader_never_raises (fun f => some f.length) "f.tiff").1 6 rfl⟩

/-- C3: once the decoder of a non-empty batch resolves, `_load_images`
returns exactly the successful decodes in input order — length `n - k` for
`k` failures — emits exactly `k` diagnostics, and a batch that loses every
file still returns a validly-typed empty stack rather than an error. -/
theorem c3_load_images_survivors {α : Type} (env : Env α) (f0 : String)
    (fs : List String) (desc : String) (mw : Int) (reader : String → Option α)
    (hr : selectReader env f0 = some reader) :
    (_load_images env (f0 :: fs) desc mw).1
        = Except.ok ((f0 :: fs).filterMap reader)
    ∧ ((f0 :: fs).filterMap reader).length
        = (f0 :: fs).length - (f0 :: fs).countP (fun f => (reader f).isNone)
    ∧ (_load_images env (f0 :: fs) desc mw).2.logs.length
        = (f0 :: fs).countP (fun f => (reader f).isNone)
    ∧ ((∀ f ∈ f0 :: fs, reader f = none) →
        (_load_images env (f0 :: fs) desc mw).1 = Except.ok []) := by
  have h1 : _load_images env (f0 :: fs) desc mw
      = processMapStack reader (f0 :: fs) desc mw := by
    simp [_load_images, hr]
  refine ⟨?_, ?_, ?_, ?_⟩
  · rw [h1]
    simp only [processMapStack, forgiving_filterMap]
  · have := filterMap_length_add_countP reader (f0 :: fs)
    omega
  · rw [h1]
    simp only [processMapStack]
    exact forgiving_logs_length reader (f0 :: fs)
  · intro hall
    rw [h1]
    simp only [processMapStack, forgiving_filterMap]
    rw [List.filterMap_eq_nil_iff.mpr hall]

/-- Witness for C3 on a batch of two tiff files of which one decode fails:
the survivors in order, and one diagnostic. -/
theorem c3_witness :
    (_load_images natEnv ["a.tiff", "bad.tiff"] "ct" 2).1
      = Except.ok ((["a.tiff", "bad.tiff"]).filterMap natEnv.read_tiff)
    ∧ (_load_images natEnv ["a.tiff", "bad.tiff"] "ct" 2).2.logs.length
      = (["a.tiff", "bad.tiff"]).countP (fun f => (natEnv.read_tiff f).isNone) :=
  ⟨(c3_load_images_survivors natEnv "a.tiff" ["bad.tiff"] "ct" 2 natEnv.read_tiff rfl).1,
   (c3_load_images_survivors natEnv "a.tiff" ["bad.tiff"] "ct" 2 natEnv.read_tiff rfl).2.2.1⟩

/-- C5: a non-empty batch whose first file has an unsupported extension
fails with the unsupported-format `ValueError` before any decode attempt
(no worker pool is instantiated and no per-file diagnostic is emitted);
otherwise the decoder chosen from the first file's extension is applied to
every file of the batch. -/
theorem c5_unsupported_format {α : Type} (env : Env α) (f0 : String)
    (fs : List String) (desc : String) (mw : Int) :
    (selectReader env f0 = none →
      _load_images env (f0 :: fs) desc mw
        = (Except.error (PyError.valueError "Unsupported file type."),
           ⟨["Unsupported file type: " ++ pyLower (pySuffix f0)], []⟩))
    ∧ (pyLower (pySuffix f0) = ".tif" ∨ pyLower (pySuffix f0) = ".tiff" →
        (_load_images env (f0 :: fs) desc mw).1
          = Except.ok ((f0 :: fs).filterMap env.read_tiff))
    ∧ (pyLower (pySuffix f0) = ".fits" →
        (_load_images env (f0 :: fs) desc mw).1
          = Except.ok ((f0 :: fs).filterMap env.read_fits)) := by
  refine ⟨?_, ?_, ?_⟩
  · intro hr
    simp [_load_images, hr]
  · intro hext
    have hr : selectReader env f0 = some env.read_tiff := by
      rcases hext with h | h <;> simp [selectReader, h]
    simp only [_load_images, hr, processMapStack, forgiving_filterMap]
  · intro hext
    have hr : selectReader env f0 = some env.read_fits := by
      simp [selectReader, hext]
    simp only [_load_images, hr, processMapStack, forgiving_filterMap]

/-- Witness for C5: `ct_files=["x.bad"]` fails with the unsupported-format
error, with no worker pool and no decode diagnostic. -/
theorem c5_witness :
    _load_images natEnv ["x.bad"] "ct" 2
      = (Except.error (PyError.valueError "Unsupported file type."),
         ⟨["Unsupported file type: " ++ pyLower (pySuffix "x.bad")], []⟩) :=
  (c5_unsupported_format natEnv "x.bad" [] "ct" 2).1 rfl

/-- C7 (spec-modelled extractor): the rotation-angle series is index-aligned
with the input file list — on success its length equals the number of ct
files — and when neither angle source yields a value for some file the
whole operation fails with an extraction error; a partial series is never
produced. -/
theorem c7_extract_total_or_fails (fa ma : String → Option ℚ) (l : List String) :
    (∀ as, _extract_rotation_angles fa ma l = Except.ok as → as.length = l.length)
    ∧ ((∃ f ∈ l, fa f = none ∧ ma f = none) →
        _extract_rotation_angles fa ma l
          = Except.error (PyError.valueError "Failed to extract rotation angles.")) := by
  constructor
  · exact fun as h => extract_length fa ma l as h
  · rintro ⟨f, hf, hfa, hma⟩
    unfold _extract_rotation_angles
    have hnall : ¬ l.all (fun f => (fa f).isSome) = true := by
      intro hall
      have := List.all_eq_true.mp hall f hf
      rw [hfa] at this
      simp at this
    rw [if_neg hnall]
    rw [optionCollect_eq_none _ l f hf (by simp [Option.orElse, hfa, hma])]

/-- Witness for C7: one file with no filename token and no metadata angle
makes the whole extraction fail. -/
theorem c7_witness :
    _extract_rotation_angles (fun _ => none) (fun _ => none) ["a.tiff"]
      = Except.error (PyError.valueError "Failed to extract rotation angles.") :=
  (c7_extract_total_or_fails (fun _ => none) (fun _ => none) ["a.tiff"]).2
    ⟨"a.tiff", by simp, rfl, rfl⟩

/-- C2: in `_load_by_file_list` an empty `ct_files` or `ob_files` list
raises the empty-input `ValueError`, while an empty `dc_files` list only
emits the warning `dc_files is [].` and, when the call succeeds, yields an
absent (`none`) dc stack instead of an error. -/
theorem c2_empty_role_policy {α : Type} (env : Env α) (ct ob : List String)
    (obO dcO : Option (List String)) (r1 r2 r3 : String) (mw : Int)
    (hct : ct ≠ []) (hob : ob ≠ []) :
    (_load_by_file_list env (some []) obO dcO r1 r2 r3 mw).1
        = Except.error (PyError.valueError "ct_files cannot be empty list.")
    ∧ (_load_by_file_list env (some ct) (some []) dcO r1 r2 r3 mw).1
        = Except.error (PyError.valueError "ob_files cannot be empty list.")
    ∧ "dc_files is []." ∈
        (_load_by_file_list env (some ct) (some ob) (some []) r1 r2 r3 mw).2.logs
    ∧ (∀ c o d, (_load_by_file_list env (some ct) (some ob) (some []) r1 r2 r3 mw).1
          = Except.ok (c, o, d) → d = none) := by
  refine ⟨by simp [_load_by_file_list], by simp [_load_by_file_list, hct], ?_, ?_⟩
  · simp only [_load_by_file_list, Option.some.injEq, pyIter]
    rw [if_neg hct, if_neg hob]
    simp only [if_true]
    split
    · simp [Trace.app]
    · split
      · simp [Trace.app]
      · simp [Trace.app]
  · intro c o d h
    simp only [_load_by_file_list, Option.some.injEq, pyIter] at h
    rw [if_neg hct, if_neg hob] at h
    simp only [if_true] at h
    split at h
    · simp at h
    · split at h
      · simp at h
      · simp at h
        exact h.2.2.symm

/-- Witness for C2 at concrete non-empty ct and ob lists. -/
theorem c2_witness :
    (_load_by_file_list natEnv (some []) (some ["b.tiff"]) (some ["c.tiff"])
        "p" "q" "r" 2).1
      = Except.error (PyError.valueError "ct_files cannot be empty list.")
    ∧ (_load_by_file_list natEnv (some ["a.tiff"]) (some []) (some ["c.tiff"])
        "p" "q" "r" 2).1
      = Except.error (PyError.valueError "ob_files cannot be empty list.") :=
  ⟨(c2_empty_role_policy natEnv ["a.tiff"] ["b.tiff"] (some ["b.tiff"])
      (some ["c.tiff"]) "p" "q" "r" 2 (by simp) (by simp)).1,
   (c2_empty_role_policy natEnv ["a.tiff"] ["b.tiff"] (some [])
      (some ["c.tiff"]) "p" "q" "r" 2 (by simp) (by simp)).2.1⟩

/-- C9 counterexample: with literal (metacharacter-free) selection patterns
— where `re.match(p, s)` is truthy exactly when `s` starts with `p` — a ct
pattern matching zero candidates makes the call fail with `IndexError`
(from `filelist[0]` in `_load_images`), not with the empty-input
`ValueError` the claim requires; and a non-empty dc list that the dc
pattern filters down to zero candidates likewise fails with `IndexError`
instead of yielding an absent dc stack. -/
theorem c9_counterexample :
    (_load_by_file_list litEnv (some ["a.tiff"]) (some ["b.tiff"]) (some ["c.tiff"])
        "z" "b" "q" 2).1 = Except.error PyError.indexError
    ∧ (_load_by_file_list litEnv (some ["a.tiff"]) (some ["b.tiff"]) (some ["c.tiff"])
        "a" "b" "z" 2).1 = Except.error PyError.indexError := by
  constructor <;> rfl

/-- C9 as amended: the emptiness checks are performed on the unfiltered
candidate lists before pattern filtering; a mandatory-role (ct) pattern
that matches zero candidates makes the loader fail with `IndexError`
rather than an empty-input error, and a non-empty dc list whose filtered
form is empty prevents the call from ever succeeding (so it never yields
an absent dc stack). -/
theorem c9_amended_filter_after_emptiness {α : Type} (env : Env α)
    (ct ob dc : List String) (r1 r2 r3 : String) (mw : Int) :
    (ct ≠ [] → ob ≠ [] → ct.filter (env.re_match r1) = [] →
      (_load_by_file_list env (some ct) (some ob) (some dc) r1 r2 r3 mw).1
        = Except.error PyError.indexError)
    ∧ (dc ≠ [] → dc.filter (env.re_match r3) = [] →
      ∀ res, (_load_by_file_list env (some ct) (some ob) (some dc) r1 r2 r3 mw).1
        ≠ Except.ok res) := by
  constructor
  · intro hct hob hfil
    simp only [_load_by_file_list, Option.some.injEq, pyIter]
    rw [if_neg hct, if_neg hob, hfil]
    simp [_load_images]
  · intro hdc hfil res h
    simp only [_load_by_file_list, Option.some.injEq, pyIter] at h
    by_cases hct : ct = []
    · rw [if_pos hct] at h
      simp at h
    · rw [if_neg hct] at h
      by_cases hob : ob = []
      · rw [if_pos hob] at h
        simp at h
      · rw [if_neg hob, if_neg hdc, hfil] at h
        split at h
        · simp at h
        · split at h
          · simp at h
          · rw [if_neg hdc] at h
            simp [_load_images] at h

/-- Witness for C9 as amended, at the same concrete literal-pattern
environment as the counterexample. -/
theorem c9_witness :
    (_load_by_file_list litEnv (some ["d.tiff"]) (some ["e.tiff"]) (some ["f.tiff"])
        "z" "e" "f" 2).1 = Except.error PyError.indexError
    ∧ ∀ res, (_load_by_file_list litEnv (some ["d.tiff"]) (some ["e.tiff"])
        (some ["f.tiff"]) "d" "e" "z" 2).1 ≠ Except.ok res :=
  ⟨(c9_amended_filter_after_emptiness litEnv ["d.tiff"] ["e.tiff"] ["f.tiff"]
      "z" "e" "f" 2).1 (by simp) (by simp) (by decide),
   (c9_amended_filter_after_emptiness litEnv ["d.tiff"] ["e.tiff"] ["f.tiff"]
      "d" "e" "z" 2).2 (by simp) (by decide)⟩

/-- C1 counterexample: a `load_data` call supplying neither signature set
does not fail with a configuration `ValueError`; the dispatcher only logs
`Found unknown input arguments, ignoring.` and the call then dies with
`UnboundLocalError` on the never-assigned local `ct_files`. -/
theorem c1_counterexample :
    (load_data_call natEnv fa0 ma0 pEmpty).1
      = Except.error (PyError.unboundLocalError "ct_files")
    ∧ raisesValueError (load_data_call natEnv fa0 ma0 pEmpty) = false := by
  constructor <;> rfl

/-- C1 as amended: when both a files field and a dir field are supplied
(and no other non-regex field, so that the signature set is exactly
`{"files", "dir"}`), the call fails with the mixed-signature `ValueError`
before any file is read (no worker pool is instantiated); when no
signature field is supplied at all, the call fails with
`UnboundLocalError` — not a configuration `ValueError` — again before any
file is read. -/
theorem c1_amended_signature_dispatch {α : Type} (env : Env α)
    (fa ma : String → Option ℚ) (p : Params)
    (hv : instanceValidate env p = Except.ok ()) :
    (p.hasFiles = true → p.hasDir = true → p.hasWorkers = false →
      (load_data_call env fa ma p).1
          = Except.error (PyError.valueError "Mix usage of allowed signature.")
        ∧ (load_data_call env fa ma p).2.pmapCalls = [])
    ∧ (p.hasFiles = false → p.hasDir = false → p.hasWorkers = false →
      (load_data_call env fa ma p).1
          = Except.error (PyError.unboundLocalError "ct_files")
        ∧ (load_data_call env fa ma p).2.pmapCalls = []) := by
  constructor
  · intro h1 h2 h3
    constructor <;> simp [load_data_call, hv, h1, h2, h3, Trace.app]
  · intro h1 h2 h3
    constructor <;> simp [load_data_call, hv, h1, h2, h3, Trace.app]

/-- Witness for C1 as amended, at a concrete mixed request. -/
theorem c1_witness :
    instanceValidate natEnv pMix = Except.ok ()
    ∧ (load_data_call natEnv fa0 ma0 pMix).1
        = Except.error (PyError.valueError "Mix usage of allowed signature.")
    ∧ (load_data_call natEnv fa0 ma0 pMix).2.pmapCalls = [] :=
  ⟨rfl, ((c1_amended_signature_dispatch natEnv fa0 ma0 pMix rfl).1 rfl rfl rfl).1,
   ((c1_amended_signature_dispatch natEnv fa0 ma0 pMix rfl).1 rfl rfl rfl).2⟩

/-- C6 counterexample: supplying `max_workers = 0` with an otherwise valid
files request raises (`UnboundLocalError`, because the supplied key adds
`"workers"` to the signature set and derails the dispatch), contradicting
"`max_workers = 0` never raises"; and on a 2-CPU machine the translated
value `cpu_count - 2` is `0`, not a positive integer, contradicting
"floored at 1". -/
theorem c6_counterexample :
    (load_data_call natEnv fa0 ma0 pZero).1
      = Except.error (PyError.unboundLocalError "ct_files")
    ∧ resolve_max_workers 2 0 = 0 := by
  constructor
  · rfl
  · decide

/-- C6 as amended: a supplied negative `max_workers` always raises the
bounds `ValueError` at validation; `max_workers = 0` passes validation and
is translated to `cpu_count - 2` with no floor (positive only when the
machine has at least 3 CPUs); but explicitly supplying `max_workers`
(even 0) derails the signature dispatch, so such a call fails with
`UnboundLocalError` instead of loading. -/
theorem c6_amended_max_workers {α : Type} (env : Env α)
    (fa ma : String → Option ℚ) (p : Params) (c : Nat) :
    (∀ mw, p.max_workers = some mw → mw < 0 →
      (load_data_call env fa ma p).1
        = Except.error (PyError.valueError "Parameter max_workers must be at least 0."))
    ∧ resolve_max_workers c 0 = (c : Int) - 2
    ∧ (0 < resolve_max_workers c 0 ↔ 3 ≤ c)
    ∧ (p.max_workers = some 0 → instanceValidate env p = Except.ok () →
      (load_data_call env fa ma p).1
        = Except.error (PyError.unboundLocalError "ct_files")) := by
  refine ⟨?_, by simp [resolve_max_workers], ?_, ?_⟩
  · intro mw hmw hneg
    simp [load_data_call, instanceValidate, hmw, hneg]
  · have h : resolve_max_workers c 0 = (c : Int) - 2 := by simp [resolve_max_workers]
    rw [h]
    omega
  · intro hz hv
    simp [load_data_call, hv, Params.hasWorkers, hz, Trace.app]

/-- Witness for C6 as amended at concrete requests with `max_workers = -1`
and `max_workers = 0`. -/
theorem c6_witness :
    (load_data_call natEnv fa0 ma0 pNeg).1
      = Except.error (PyError.valueError "Parameter max_workers must be at least 0.")
    ∧ (load_data_call natEnv fa0 ma0 pZero2).1
      = Except.error (PyError.unboundLocalError "ct_files") :=
  ⟨(c6_amended_max_workers natEnv fa0 ma0 pNeg 2).1 (-1) rfl (by decide),
   (c6_amended_max_workers natEnv fa0 ma0 pZero2 2).2.2.2 rfl rfl⟩

/-- C8 counterexample: a successful orchestrator call in which one ct file
fails to decode (but still has a filename angle) returns a ct stack of
length 1 and an angle series of length 2, so
`len(angles) == len(ct_stack)` fails on a successful call. -/
theorem c8_counterexample :
    okLens (load_data_call env8 fa0 ma0 p8cex).1 = some (1, 2)
    ∧ (1 : Nat) ≠ 2 := by
  constructor
  · rfl
  · decide

/-- C8 as amended: the orchestrator extracts angles from the original,
unfiltered `ct_files` argument (not from the pattern-filtered list whose
decode survivors form the ct stack), so on every successful call
`len(angles) = len(ct_files)`; this equals the ct-stack length only when
pattern filtering removes nothing and every ct file decodes. -/
theorem c8_amended_angles_from_raw_list {α : Type} (env : Env α)
    (fa ma : String → Option ℚ) (p : Params) (l : List String)
    (ct ob : List α) (dc : Option (List α)) (angles : List ℚ)
    (hl : p.ct_files = some l)
    (hok : (load_data_call env fa ma p).1 = Except.ok (ct, ob, dc, angles)) :
    angles.length = l.length := by
  unfold load_data_call at hok
  split at hok
  · simp at hok
  · split at hok
    · simp at hok
    · split at hok
      · -- files branch
        split at hok
        · simp at hok
        · -- resolver succeeded
          split at hok
          · simp at hok
          · -- p.ct_files matched `some ctl`
            rename_i heq2
            split at hok
            · simp at hok
            · rename_i as hex
              simp at hok
              rw [hl] at heq2
              cases heq2
              rw [← hok.2.2.2]
              exact extract_length fa ma l as hex
      · split at hok
        · -- dir branch
          split at hok
          split at hok
          · simp at hok
          · simp at hok
        · simp at hok

/-- Witness for C8 as amended: a concrete successful call whose angle
series has exactly one entry per original ct file. -/
theorem c8_witness :
    (load_data_call natEnv fa0 ma0 p8ok).1
      = Except.ok ([1, 1], [1], none, [(0 : ℚ), 0])
    ∧ ([(0 : ℚ), 0]).length = (["a.tiff", "c.tiff"] : List String).length :=
  ⟨rfl,
   c8_amended_angles_from_raw_list natEnv fa0 ma0 p8ok ["a.tiff", "c.tiff"]
     [1, 1] [1] none [(0 : ℚ), 0] rfl rfl⟩

/-- Every worker pool instantiated by `_load_images` uses exactly the
`max_workers` value it was given. -/
theorem load_images_pmap {α : Type} (env : Env α) (fl : List String)
    (desc : String) (mw : Int) :
    ∀ x ∈ (_load_images env fl desc mw).2.pmapCalls, x.2 = mw := by
  intro x hx
  cases fl with
  | nil => simp [_load_images, emptyTrace] at hx
  | cons f0 fs =>
    cases hr : selectReader env f0 with
    | some reader =>
      simp only [_load_images, hr, processMapStack] at hx
      simp at hx
      rw [hx]
    | none =>
      simp [_load_images, hr] at hx

/-- Membership in the worker-pool record of an appended trace splits. -/
theorem trace_app_pmap {P : String × Int → Prop} (t1 t2 : Trace)
    (h1 : ∀ x ∈ t1.pmapCalls, P x) (h2 : ∀ x ∈ t2.pmapCalls, P x) :
    ∀ x ∈ (t1.app t2).pmapCalls, P x := by
  intro x hx
  rcases List.mem_append.mp hx with h | h
  · exact h1 x h
  · exact h2 x h

/-- The dc warning trace instantiates no worker pool. -/
theorem tWarn_pmap (c : Prop) [Decidable c] :
    (if c then (⟨["dc_files is []."], []⟩ : Trace) else emptyTrace).pmapCalls = [] := by
  split <;> rfl

/-- Every worker pool instantiated by `_load_by_file_list` uses exactly the
`max_workers` value the resolver was given. -/
theorem load_by_file_list_pmap {α : Type} (env : Env α)
    (cf obf dcf : Option (List String)) (r1 r2 r3 : String) (mw : Int) :
    ∀ x ∈ (_load_by_file_list env cf obf dcf r1 r2 r3 mw).2.pmapCalls, x.2 = mw := by
  intro x hx
  by_cases h1 : cf = some []
  · simp [_load_by_file_list, h1] at hx
  by_cases h2 : obf = some []
  · simp [_load_by_file_list, h1, h2] at hx
  cases cf with
  | none => simp [_load_by_file_list, h1, h2, pyIter, tWarn_pmap] at hx
  | some ctl =>
    rcases hl1 : _load_images env (ctl.filter (env.re_match r1)) "ct" mw with ⟨rr1, t1⟩
    have ht1 : ∀ y ∈ t1.pmapCalls, y.2 = mw := by
      intro y hy
      refine load_images_pmap env (ctl.filter (env.re_match r1)) "ct" mw y ?_
      rw [hl1]
      exact hy
    cases rr1 with
    | error e =>
      simp [_load_by_file_list, h1, h2, pyIter, hl1, tWarn_pmap, Trace.app] at hx
      exact ht1 x hx
    | ok cts =>
      cases obf with
      | none =>
        simp [_load_by_file_list, h1, h2, pyIter, hl1, tWarn_pmap, Trace.app] at hx
        exact ht1 x hx
      | some obl =>
        rcases hl2 : _load_images env (obl.filter (env.re_match r2)) "ob" mw with ⟨rr2, t2⟩
        have ht2 : ∀ y ∈ t2.pmapCalls, y.2 = mw := by
          intro y hy
          refine load_images_pmap env (obl.filter (env.re_match r2)) "ob" mw y ?_
          rw [hl2]
          exact hy
        cases rr2 with
        | error e =>
          simp [_load_by_file_list, h1, h2, pyIter, hl1, hl2, tWarn_pmap, Trace.app] at hx
          rcases hx with hx | hx
          · exact ht1 x hx
          · exact ht2 x hx
        | ok obs =>
          by_cases h3 : dcf = some []
          · simp [_load_by_file_list, h1, h2, h3, pyIter, hl1, hl2, Trace.app] at hx
            rcases hx with hx | hx
            · exact ht1 x hx
            · exact ht2 x hx
          · cases dcf with
            | none =>
              simp [_load_by_file_list, h1, h2, h3, pyIter, hl1, hl2, tWarn_pmap, emptyTrace,
                Trace.app] at hx
              rcases hx with hx | hx
              · exact ht1 x hx
              · exact ht2 x hx
            | some dcl =>
              rcases hl3 : _load_images env (dcl.filter (env.re_match r3)) "dc" mw
                with ⟨rr3, t3⟩
              have ht3 : ∀ y ∈ t3.pmapCalls, y.2 = mw := by
                intro y hy
                refine load_images_pmap env (dcl.filter (env.re_match r3)) "dc" mw y ?_
                rw [hl3]
                exact hy
              cases rr3 with
              | error e =>
                simp [_load_by_file_list, h1, h2, h3, pyIter, hl1, hl2, hl3, tWarn_pmap, emptyTrace,
                  Trace.app] at hx
                rcases hx with hx | hx | hx
                · exact ht1 x hx
                · exact ht2 x hx
                · exact ht3 x hx
              | ok dcs =>
                simp [_load_by_file_list, h1, h2, h3, pyIter, hl1, hl2, hl3, tWarn_pmap, emptyTrace,
                  Trace.app] at hx
                rcases hx with hx | hx | hx
                · exact ht1 x hx
                · exact ht2 x hx
                · exact ht3 x hx

/-- C10 as amended: the orchestrator resolves `max_workers` (and logs the
resolved value) but never forwards it: the resolver is invoked without a
`max_workers` argument, so every worker pool instantiated anywhere during
a `load_data` call uses the resolver's default bound `0`, whatever the
request and the machine's parallelism. -/
theorem c10_amended_workers_never_forwarded {α : Type} (env : Env α)
    (fa ma : String → Option ℚ) (p : Params) :
    ∀ x ∈ (load_data_call env fa ma p).2.pmapCalls, x.2 = 0 := by
  intro x hx
  cases hv : instanceValidate env p with
  | error e =>
    simp [load_data_call, hv, emptyTrace] at hx
  | ok u =>
    cases u
    by_cases hb1 : (p.hasFiles && p.hasDir && !p.hasWorkers) = true
    · simp [load_data_call, hv, hb1, Trace.app] at hx
    · by_cases hb2 : (p.hasFiles && !p.hasDir && !p.hasWorkers) = true
      · rcases hlb : _load_by_file_list env p.ct_files p.ob_files
            (some (p.dc_files.getD [])) (p.ct_regex.getD defaultRegex)
            (p.ob_regex.getD defaultRegex) (p.dc_regex.getD defaultRegex)
          with ⟨rr, t2⟩
        have ht2 : ∀ y ∈ t2.pmapCalls, y.2 = 0 := by
          intro y hy
          refine load_by_file_list_pmap env p.ct_files p.ob_files
            (some (p.dc_files.getD [])) (p.ct_regex.getD defaultRegex)
            (p.ob_regex.getD defaultRegex) (p.dc_regex.getD defaultRegex) 0 y ?_
          rw [hlb]
          exact hy
        simp only [load_data_call, hv, hb1, hb2] at hx
        rw [if_neg (by simp), if_pos trivial] at hx
        rw [hlb] at hx
        cases rr with
        | error e =>
          simp [Trace.app] at hx
          exact ht2 x hx
        | ok trip =>
          obtain ⟨c1, o1, d1⟩ := trip
          dsimp only at hx
          cases hcf : p.ct_files with
          | none =>
            rw [hcf] at hx
            simp [Trace.app] at hx
            exact ht2 x hx
          | some ctl =>
            rw [hcf] at hx
            dsimp only at hx
            split at hx <;> (simp [Trace.app] at hx; exact ht2 x hx)
      · by_cases hb3 : (p.hasDir && !p.hasFiles && !p.hasWorkers) = true
        · simp [load_data_call, hv, hb1, hb2, hb3, _load_by_dir, Trace.app,
            emptyTrace] at hx
        · simp [load_data_call, hv, hb1, hb2, hb3, Trace.app] at hx

/-- C10 counterexample: on a 10-CPU machine the orchestrator resolves and
logs `max_worker=8`, yet both per-role worker pools it actually
instantiates are created with `max_workers = 0`, so the resolved bound is
not the one passed to the per-role load calls. -/
theorem c10_counterexample :
    (load_data_call natEnv fa0 ma0 p10).2.pmapCalls = [("ct", 0), ("ob", 0)]
    ∧ "max_worker=8" ∈ (load_data_call natEnv fa0 ma0 p10).2.logs
    ∧ resolve_max_workers natEnv.cpu_count 0 = 8 := by
  refine ⟨rfl, ?_, by decide⟩
  have h : (load_data_call natEnv fa0 ma0 p10).2.logs
      = ["max_worker=8", "Load by file list", "dc_files is []."] := rfl
  rw [h]
  simp

/-- Witness for C10 as amended: the ct-role pool of a concrete call is
created with worker bound 0. -/
theorem c10_witness :
    ("ct", (0 : Int)) ∈ (load_data_call natEnv fa0 ma0 p10w).2.pmapCalls
    ∧ (("ct", (0 : Int)) : String × Int).2 = 0 :=
  ⟨by rw [show (load_data_call natEnv fa0 ma0 p10w).2.pmapCalls
        = [("ct", 0), ("ob", 0)] from rfl]
      simp,
   c10_amended_workers_never_forwarded natEnv fa0 ma0 p10w ("ct", 0)
     (by rw [show (load_data_call natEnv fa0 ma0 p10w).2.pmapCalls
           = [("ct", 0), ("ob", 0)] from rfl]
         simp)⟩
